import Mathlib

/-!
Verification of the Stream Deck GitHub Action Status plugin
(`src/github-api.ts`, `src/plugin.ts`, `src/types.ts`) against its
natural-language specification.

The TypeScript source is shallowly embedded: pure functions become Lean
functions; the single HTTPS request performed per refresh is modelled by
an explicit `HttpOutcome` parameter describing what the network returned;
the plugin's mutable session map and interval timers become an explicit
`PluginState` threaded through the event handlers, which also emit a list
of `Effect`s (display updates, fetch invocations, open-url commands)
describing their observable behaviour.

JavaScript truthiness on strings (empty string is falsy) and on optional
numbers (0 and absent are falsy) is modelled explicitly where the source
relies on it (`workflow || 'No runs'`, `refreshInterval || 60`,
`keyDownTime || 0`, `if (result.error)`).
-/

/-- The four canonical display statuses (`WorkflowStatus` in types.ts). -/
inductive WorkflowStatus where
  | success
  | failure
  | pending
  | unknown
deriving DecidableEq, Repr

/-- One provider run record (`WorkflowRun` in types.ts). `conclusion` is
nullable in the source, hence `Option String`. -/
structure WorkflowRun where
  id : Nat
  name : String
  status : String
  conclusion : Option String
  html_url : String
  created_at : String
  updated_at : String
  head_branch : String
  head_sha : String
deriving DecidableEq, Repr

/-- The provider's response body (`GitHubActionsResponse` in types.ts). -/
structure GitHubActionsResponse where
  total_count : Nat
  workflow_runs : List WorkflowRun
deriving DecidableEq, Repr

/-- Result of one fetch+classify cycle (`WorkflowStatusResult` in types.ts). -/
structure WorkflowStatusResult where
  status : WorkflowStatus
  name : String
  url : String
  branch : String
  updatedAt : Option String := none
  error : Option String := none
deriving DecidableEq, Repr

/-- JavaScript truthiness of an optional string: `undefined` and `''` are
falsy, every other string is truthy. -/
def jsStrTruthy : Option String → Bool
  | none => false
  | some s => s ≠ ""

/-- JavaScript `a || b` on an optional string (used for
`workflow || 'No runs'` in github-api.ts). -/
def jsStrOr (o : Option String) (d : String) : String :=
  match o with
  | none => d
  | some s => if s = "" then d else s

/-- `mapGitHubStatus` from src/github-api.ts lines 107-124: the outer `if`
on `status` and the inner `switch` on `conclusion`, in source order. -/
def mapGitHubStatus (status : String) (conclusion : Option String) :
    WorkflowStatus :=
  if status = "completed" then
    if conclusion = some "success" then .success
    else if conclusion = some "failure" ∨ conclusion = some "cancelled" ∨
        conclusion = some "timed_out" then .failure
    else .unknown
  else if status = "in_progress" ∨ status = "queued" ∨ status = "pending" ∨
      status = "waiting" then .pending
  else .unknown

/-- The spec's order-sensitive classification rules (§4.1 rules 2-4),
written from the spec's words for comparison with `mapGitHubStatus`. -/
def specClassify (lifecycle : String) (outcome : Option String) :
    WorkflowStatus :=
  if lifecycle = "completed" then
    match outcome with
    | some o =>
        if o = "success" then .success
        else if o ∈ ["failure", "cancelled", "timed_out"] then .failure
        else .unknown
    | none => .unknown
  else if lifecycle ∈ ["in_progress", "queued", "pending", "waiting"] then
    .pending
  else .unknown

/-- What the single HTTPS request of a refresh produced, as observed by the
response handlers in `getWorkflowRuns` (src/github-api.ts lines 69-104):
a response with a status code and (for 200) the result of `JSON.parse` on
the body (`none` when parsing throws), a transport error carrying the
underlying message, or the 10-second timeout firing. -/
inductive HttpOutcome where
  | response (statusCode : Nat) (parsedBody : Option GitHubActionsResponse)
  | networkError (msg : String)
  | timeout
deriving DecidableEq, Repr

/-- `getWorkflowRuns` from src/github-api.ts lines 44-105, as a function of
the observed `HttpOutcome`: resolves with the parsed body on a parseable
200 response, otherwise rejects with the error message the source builds
for each case (`Except.error` models a rejected promise). -/
def getWorkflowRuns (outcome : HttpOutcome) :
    Except String GitHubActionsResponse :=
  match outcome with
  | .response statusCode parsedBody =>
      if statusCode = 200 then
        match parsedBody with
        | some parsed => .ok parsed
        | none => .error "Failed to parse GitHub response"
      else if statusCode = 401 then .error "Invalid GitHub token"
      else if statusCode = 404 then .error "Repository or workflow not found"
      else .error ("GitHub API error: " ++ toString statusCode)
  | .networkError msg => .error ("Network error: " ++ msg)
  | .timeout => .error "Request timeout"

/-- The repository's general actions run-list URL, as built at
src/github-api.ts lines 17 and 37. -/
def actionsListUrl (owner repo : String) : String :=
  "https://github.com/" ++ owner ++ "/" ++ repo ++ "/actions"

/-- The zero-runs result object returned at src/github-api.ts lines 14-20:
`name` is `workflow || 'No runs'`. -/
def noRunsResult (owner repo : String) (workflow : Option String) :
    WorkflowStatusResult :=
  { status := .unknown, name := jsStrOr workflow "No runs",
    url := actionsListUrl owner repo, branch := "",
    error := some "No workflow runs found" }

/-- The catch-block result object returned at src/github-api.ts
lines 34-40. -/
def caughtErrorResult (owner repo : String) (errorMessage : String) :
    WorkflowStatusResult :=
  { status := .unknown, name := "Error", url := actionsListUrl owner repo,
    branch := "", error := some errorMessage }

/-- The classified result for the latest run, returned at
src/github-api.ts lines 26-31 (no `updatedAt`, no `error`). -/
def latestRunResult (latestRun : WorkflowRun) : WorkflowStatusResult :=
  { status := mapGitHubStatus latestRun.status latestRun.conclusion,
    name := latestRun.name, url := latestRun.html_url,
    branch := latestRun.head_branch }

/-- `fetchWorkflowStatus` from src/github-api.ts lines 4-42, as a function
of the observed `HttpOutcome`. The `catch` block becomes the
`Except.error` branch; `workflow_runs[0]` becomes `head?`, whose `none`
arm is unreachable under the zero-runs guard. -/
def fetchWorkflowStatus (owner repo : String) (workflow : Option String)
    (outcome : HttpOutcome) : WorkflowStatusResult :=
  match getWorkflowRuns outcome with
  | .error errorMessage => caughtErrorResult owner repo errorMessage
  | .ok runs =>
      if runs.total_count = 0 ∨ runs.workflow_runs.length = 0 then
        noRunsResult owner repo workflow
      else
        match runs.workflow_runs.head? with
        | none => noRunsResult owner repo workflow
        | some latestRun => latestRunResult latestRun

/-- Per-session settings (`ActionSettings` in types.ts). `workflow` is
optional in the source; `refreshInterval` is a number of seconds, stored
here as `Nat` with `0` standing for the falsy values (absent or zero)
that `refreshInterval || 60` guards against. The source's JS number also
admits fractional and negative values, which this narrowing excludes:
`refreshPeriodMs` models the period computation over the full number
domain, and the claims about the minimum period are settled against it,
not against this narrowed field. -/
structure ActionSettings where
  githubToken : String
  owner : String
  repo : String
  workflow : Option String := none
  refreshInterval : Nat
deriving DecidableEq, Repr

/-- One live session (`ActionInstance` in types.ts). `refreshTimer` is the
identifier of the interval timer currently owned by the instance (`none`
when stopped); `keyDownTime` is the `Date.now()` of the outstanding
press. -/
structure ActionInstance where
  context : String
  settings : ActionSettings
  refreshTimer : Option Nat := none
  keyDownTime : Option Nat := none
deriving DecidableEq, Repr

/-- Lookup in the `actions` map (`Map.get`), embedded as an association
list. -/
def mapGet (m : List (String × ActionInstance)) (k : String) :
    Option ActionInstance :=
  match m with
  | [] => none
  | (k1, v) :: rest => if k1 = k then some v else mapGet rest k

/-- Insert-or-replace in the `actions` map (`Map.set`). -/
def mapSet (m : List (String × ActionInstance)) (k : String)
    (v : ActionInstance) : List (String × ActionInstance) :=
  match m with
  | [] => [(k, v)]
  | (k1, v1) :: rest =>
      if k1 = k then (k, v) :: rest else (k1, v1) :: mapSet rest k v

/-- Removal from the `actions` map (`Map.delete`). -/
def mapDelete (m : List (String × ActionInstance)) (k : String) :
    List (String × ActionInstance) :=
  match m with
  | [] => []
  | (k1, v1) :: rest =>
      if k1 = k then mapDelete rest k else (k1, v1) :: mapDelete rest k

/-- `LONG_PRESS_THRESHOLD` from src/plugin.ts line 7, in milliseconds. -/
def LONG_PRESS_THRESHOLD : Nat := 500

/-- JavaScript `n || d` on the embedded interval number: `0` (absent or
zero) falls back to the default. -/
def jsNatOr (n d : Nat) : Nat :=
  if n = 0 then d else n

/-- JavaScript `n || d` on the source's unclamped number type for the
refresh interval, embedded as `ℚ`: `0` (and absent) is falsy; every other
value — including fractional and negative ones — is truthy and used as
is. -/
def jsNumOr (n d : ℚ) : ℚ :=
  if n = 0 then d else n

/-- The timer period `(refreshInterval || 60) * 1000` computed at
src/plugin.ts line 157, over the source's JS number embedded as `ℚ`
(exact for the values at issue). The session model narrows the stored
interval to `Nat`; this definition keeps the source's unclamped
arithmetic, which admits fractional and negative configured values. -/
def refreshPeriodMs (refreshInterval : ℚ) : ℚ :=
  jsNumOr refreshInterval 60 * 1000

/-- `formatStatusText` from src/plugin.ts lines 199-210. -/
def formatStatusText (status : WorkflowStatus) : String :=
  match status with
  | .success => "Success"
  | .failure => "Failed"
  | .pending => "Running"
  | .unknown => "Unknown"

/-- `getDefaultSettings` from src/plugin.ts lines 143-151. -/
def getDefaultSettings : ActionSettings :=
  { githubToken := "", owner := "", repo := "", workflow := some "",
    refreshInterval := 60 }

/-- The URL built by `openGitHub` (src/plugin.ts lines 236-250):
the actions list of the configured repository, narrowed to the configured
workflow when that setting is truthy. -/
def openGitHubUrl (s : ActionSettings) : String :=
  if jsStrTruthy s.workflow then
    actionsListUrl s.owner s.repo ++ "/workflows/" ++ (s.workflow.getD "")
  else
    actionsListUrl s.owner s.repo

/-- Observable commands the handlers emit. `setDisplay` stands for one
`updateDisplay` call (src/plugin.ts lines 212-234, a `setImage` plus a
`setTitle` frame for the given status and title); `fetchCall` records one
invocation of `fetchWorkflowStatus` with the argument values read from the
settings; `openUrl` is the `openUrl` frame sent by `openGitHub`. -/
inductive Effect where
  | setDisplay (context : String) (status : WorkflowStatus) (title : String)
  | fetchCall (context : String) (githubToken owner repo : String)
      (workflow : Option String)
  | openUrl (url : String)
deriving DecidableEq, Repr

/-- The title chosen at src/plugin.ts lines 189-194: "Error" when
`result.error` is truthy, else `formatStatusText(result.status)`. -/
def displayTitleFor (result : WorkflowStatusResult) : String :=
  if jsStrTruthy result.error then "Error"
  else formatStatusText result.status

/-- The effects of one `refreshStatus` body run with settings `s`
(src/plugin.ts lines 176-196), given the outcome of the awaited request:
skip the fetch and show "Configure" when the credential, owner or repo is
empty; otherwise show the loading state, perform the fetch, and show the
result. -/
def refreshEffectsFor (ctx : String) (s : ActionSettings)
    (outcome : HttpOutcome) : List Effect :=
  if s.githubToken = "" ∨ s.owner = "" ∨ s.repo = "" then
    [.setDisplay ctx .unknown "Configure"]
  else
    [.setDisplay ctx .pending "Loading...",
     .fetchCall ctx s.githubToken s.owner s.repo s.workflow,
     .setDisplay ctx
       (fetchWorkflowStatus s.owner s.repo s.workflow outcome).status
       (displayTitleFor (fetchWorkflowStatus s.owner s.repo s.workflow
         outcome))]

/-- Plugin state: the session map (`actions`), plus bookkeeping for the
interval timers handed out by `setInterval`: `nextTimerId` generates fresh
handles and `liveTimers` lists every interval created and not yet
cancelled, as `(handle, context refreshed by its callback, period in
milliseconds)`. -/
structure PluginState where
  actions : List (String × ActionInstance)
  nextTimerId : Nat
  liveTimers : List (Nat × String × Nat)
deriving DecidableEq, Repr

/-- The plugin's initial state: empty session map, no timers. -/
def initState : PluginState :=
  { actions := [], nextTimerId := 0, liveTimers := [] }

/-- `refreshStatus` from src/plugin.ts lines 172-197: looks the instance
up at call time (no-op when the session is gone) and runs the body on its
current settings. It mutates nothing, so it is embedded as the list of
effects it emits. -/
def refreshStatus (st : PluginState) (ctx : String) (outcome : HttpOutcome) :
    List Effect :=
  match mapGet st.actions ctx with
  | none => []
  | some inst => refreshEffectsFor ctx inst.settings outcome

/-- `startRefreshTimer` from src/plugin.ts lines 153-162: computes the
period `(refreshInterval || 60) * 1000` and stores a fresh interval handle
on the instance. -/
def startRefreshTimer (st : PluginState) (ctx : String) : PluginState :=
  match mapGet st.actions ctx with
  | none => st
  | some inst =>
      let interval := jsNatOr inst.settings.refreshInterval 60 * 1000
      { st with
        actions := mapSet st.actions ctx
          { inst with refreshTimer := some st.nextTimerId },
        nextTimerId := st.nextTimerId + 1,
        liveTimers := st.liveTimers ++ [(st.nextTimerId, ctx, interval)] }

/-- `stopRefreshTimer` from src/plugin.ts lines 164-170: cancels the
instance's interval (if any) and clears the handle. -/
def stopRefreshTimer (st : PluginState) (ctx : String) : PluginState :=
  match mapGet st.actions ctx with
  | none => st
  | some inst =>
      match inst.refreshTimer with
      | none => st
      | some tid =>
          { st with
            actions := mapSet st.actions ctx
              { inst with refreshTimer := none },
            liveTimers := st.liveTimers.filter (fun t => t.1 ≠ tid) }

/-- `handleWillAppear` from src/plugin.ts lines 89-99: store a fresh
instance (default settings when the payload carries none), start its
timer, fire an immediate refresh. -/
def handleWillAppear (st : PluginState) (ctx : String)
    (settings : Option ActionSettings) (outcome : HttpOutcome) :
    PluginState × List Effect :=
  let instance0 : ActionInstance :=
    { context := ctx, settings := settings.getD getDefaultSettings }
  let st1 : PluginState :=
    { st with actions := mapSet st.actions ctx instance0 }
  let st2 := startRefreshTimer st1 ctx
  (st2, refreshStatus st2 ctx outcome)

/-- `handleWillDisappear` from src/plugin.ts lines 101-107: cancel the
instance's interval (if the session exists and holds one) and delete the
entry. -/
def handleWillDisappear (st : PluginState) (ctx : String) : PluginState :=
  let st1 : PluginState :=
    match mapGet st.actions ctx with
    | some inst =>
        match inst.refreshTimer with
        | some tid =>
            { st with liveTimers := st.liveTimers.filter (fun t => t.1 ≠ tid) }
        | none => st
    | none => st
  { st1 with actions := mapDelete st1.actions ctx }

/-- `handleKeyDown` from src/plugin.ts lines 109-114: record the press
timestamp on the instance, if the session exists. -/
def handleKeyDown (st : PluginState) (ctx : String) (now : Nat) :
    PluginState :=
  match mapGet st.actions ctx with
  | none => st
  | some inst =>
      { st with
        actions := mapSet st.actions ctx { inst with keyDownTime := some now } }

/-- `handleKeyUp` from src/plugin.ts lines 116-131: no-op when the session
is unknown; otherwise compute `Date.now() - (keyDownTime || 0)`, open
GitHub on a long press, refresh on a short press, and clear the stored
timestamp in every case. -/
def handleKeyUp (st : PluginState) (ctx : String) (now : Nat)
    (outcome : HttpOutcome) : PluginState × List Effect :=
  match mapGet st.actions ctx with
  | none => (st, [])
  | some inst =>
      let pressDuration := now - inst.keyDownTime.getD 0
      let effects :=
        if pressDuration ≥ LONG_PRESS_THRESHOLD then
          [Effect.openUrl (openGitHubUrl inst.settings)]
        else
          refreshStatus st ctx outcome
      ({ st with
         actions := mapSet st.actions ctx
           { inst with keyDownTime := none } },
       effects)

/-- `handleDidReceiveSettings` from src/plugin.ts lines 133-141: when the
session exists, replace its settings wholesale, stop the old timer, start
a new one, and fire an immediate refresh. -/
def handleDidReceiveSettings (st : PluginState) (ctx : String)
    (newSettings : ActionSettings) (outcome : HttpOutcome) :
    PluginState × List Effect :=
  match mapGet st.actions ctx with
  | none => (st, [])
  | some inst =>
      let st1 : PluginState :=
        { st with
          actions := mapSet st.actions ctx { inst with settings := newSettings } }
      let st2 := stopRefreshTimer st1 ctx
      let st3 := startRefreshTimer st2 ctx
      (st3, refreshStatus st3 ctx outcome)

/-- Inbound events of the session scheduler. The events that trigger a
refresh carry the `HttpOutcome` the environment would answer with;
`timerFire` models one tick of a `setInterval` callback, which does
nothing once the interval has been cancelled. -/
inductive Event where
  | willAppear (ctx : String) (settings : Option ActionSettings)
      (outcome : HttpOutcome)
  | willDisappear (ctx : String)
  | keyDown (ctx : String) (now : Nat)
  | keyUp (ctx : String) (now : Nat) (outcome : HttpOutcome)
  | didReceiveSettings (ctx : String) (settings : ActionSettings)
      (outcome : HttpOutcome)
  | timerFire (timerId : Nat) (outcome : HttpOutcome)
deriving DecidableEq, Repr

/-- One run-to-completion step of the event dispatcher
(src/plugin.ts lines 65-87, plus `setInterval` callback firing). -/
def stepEvent (st : PluginState) (e : Event) : PluginState × List Effect :=
  match e with
  | .willAppear ctx settings outcome => handleWillAppear st ctx settings outcome
  | .willDisappear ctx => (handleWillDisappear st ctx, [])
  | .keyDown ctx now => (handleKeyDown st ctx now, [])
  | .keyUp ctx now outcome => handleKeyUp st ctx now outcome
  | .didReceiveSettings ctx settings outcome =>
      handleDidReceiveSettings st ctx settings outcome
  | .timerFire timerId outcome =>
      match st.liveTimers.find? (fun t => t.1 = timerId) with
      | some (_, ctx, _) => (st, refreshStatus st ctx outcome)
      | none => (st, [])

/-- Run a sequence of events from a state, discarding effects. -/
def runEvents (st : PluginState) (es : List Event) : PluginState :=
  match es with
  | [] => st
  | e :: rest => runEvents (stepEvent st e).1 rest

/-- Number of live interval timers whose callback refreshes session `k`. -/
def timersFor (st : PluginState) (k : String) : Nat :=
  (st.liveTimers.filter (fun t => t.2.1 = k)).length

/-- Sample configured settings used by concrete evaluations. -/
def sampleSettings : ActionSettings :=
  { githubToken := "t", owner := "o", repo := "r", workflow := none,
    refreshInterval := 60 }

/-- Sample instance for session "a" with no outstanding press. -/
def sampleInstance : ActionInstance :=
  { context := "a", settings := sampleSettings }

/-- Sample state holding only session "a", no timers. -/
def sampleState : PluginState :=
  { actions := [("a", sampleInstance)], nextTimerId := 0, liveTimers := [] }

/-- Sample instance for session "a" with a press begun at t = 100. -/
def pressedInstance : ActionInstance :=
  { context := "a", settings := sampleSettings, keyDownTime := some 100 }

/-- Sample state holding only the pressed session "a". -/
def pressedState : PluginState :=
  { actions := [("a", pressedInstance)], nextTimerId := 0, liveTimers := [] }

/-- Sample instance for session "a" owning interval timer 0. -/
def timedInstance : ActionInstance :=
  { context := "a", settings := sampleSettings, refreshTimer := some 0 }

/-- Sample state holding session "a" with its live timer 0. -/
def timedState : PluginState :=
  { actions := [("a", timedInstance)], nextTimerId := 1,
    liveTimers := [(0, "a", 60000)] }

/-- Sample instance for session "a" with all-empty settings. -/
def unconfiguredInstance : ActionInstance :=
  { context := "a", settings := getDefaultSettings }

/-- Sample state holding only the unconfigured session "a". -/
def unconfiguredState : PluginState :=
  { actions := [("a", unconfiguredInstance)], nextTimerId := 0,
    liveTimers := [] }

/-- Unfolding `fetchWorkflowStatus` when the request rejected. -/
theorem fetchWorkflowStatus_of_error (owner repo : String)
    (workflow : Option String) (outcome : HttpOutcome) (msg : String)
    (hg : getWorkflowRuns outcome = .error msg) :
    fetchWorkflowStatus owner repo workflow outcome =
      caughtErrorResult owner repo msg := by
  unfold fetchWorkflowStatus
  rw [hg]

/-- Unfolding `fetchWorkflowStatus` when the request resolved. -/
theorem fetchWorkflowStatus_of_ok (owner repo : String)
    (workflow : Option String) (outcome : HttpOutcome)
    (runs : GitHubActionsResponse)
    (hg : getWorkflowRuns outcome = .ok runs) :
    fetchWorkflowStatus owner repo workflow outcome =
      if runs.total_count = 0 ∨ runs.workflow_runs.length = 0 then
        noRunsResult owner repo workflow
      else
        match runs.workflow_runs.head? with
        | none => noRunsResult owner repo workflow
        | some latestRun => latestRunResult latestRun := by
  unfold fetchWorkflowStatus
  rw [hg]

/-- Concatenating onto a non-empty string stays non-empty. -/
theorem string_append_ne_empty (a b : String) (h : a ≠ "") : a ++ b ≠ "" := by
  intro hc
  apply h
  have hl : a.data ++ b.data = [] := congrArg String.data hc
  rcases List.append_eq_nil.mp hl with ⟨ha, _⟩
  cases a
  simp_all

/-- Every rejection message `getWorkflowRuns` builds is non-empty. -/
theorem getWorkflowRuns_error_nonempty (outcome : HttpOutcome) (s : String)
    (h : getWorkflowRuns outcome = .error s) : s ≠ "" := by
  rcases outcome with ⟨code, _ | parsed⟩ | msg | _ <;>
      simp only [getWorkflowRuns] at h <;> try split_ifs at h
  all_goals try (injection h with h)
  all_goals try subst h
  all_goals
    first
    | decide
    | exact string_append_ne_empty _ _ (by decide)

/-- Every error string `fetchWorkflowStatus` can attach is non-empty. -/
theorem fetchWorkflowStatus_error_nonempty (owner repo : String)
    (workflow : Option String) (outcome : HttpOutcome) (s : String)
    (h : (fetchWorkflowStatus owner repo workflow outcome).error = some s) :
    s ≠ "" := by
  cases hg : getWorkflowRuns outcome with
  | error msg =>
      rw [fetchWorkflowStatus_of_error owner repo workflow outcome msg hg] at h
      simp only [caughtErrorResult, Option.some.injEq] at h
      subst h
      exact getWorkflowRuns_error_nonempty outcome msg hg
  | ok runs =>
      rw [fetchWorkflowStatus_of_ok owner repo workflow outcome runs hg] at h
      split_ifs at h
      · simp only [noRunsResult, Option.some.injEq] at h
        subst h
        decide
      · rcases hr : runs.workflow_runs.head? with _ | latestRun <;>
          rw [hr] at h
        · simp only [noRunsResult, Option.some.injEq] at h
          subst h
          decide
        · simp [latestRunResult] at h

/-- Claim C2: `fetchWorkflowStatus` never throws: every failure of the
underlying request (transport error, timeout, 401, 404, other non-200
status, malformed JSON on a 200) is converted into a `WorkflowStatusResult`
with classification `unknown`, a non-empty human-readable error string,
and the repository's general actions run-list URL; and the error messages
are the fixed classes the source builds for each case. -/
theorem fetchWorkflowStatus_never_throws (owner repo : String)
    (workflow : Option String) (outcome : HttpOutcome) (msg : String)
    (h : getWorkflowRuns outcome = .error msg) :
    fetchWorkflowStatus owner repo workflow outcome =
      { status := .unknown, name := "Error",
        url := actionsListUrl owner repo, branch := "",
        error := some msg } ∧
    msg ≠ "" ∧
    (∀ body, outcome = .response 401 body → msg = "Invalid GitHub token") ∧
    (∀ body, outcome = .response 404 body →
      msg = "Repository or workflow not found") ∧
    (∀ code body, outcome = .response code body → code ≠ 200 → code ≠ 401 →
      code ≠ 404 → msg = "GitHub API error: " ++ toString code) ∧
    (outcome = .response 200 none → msg = "Failed to parse GitHub response") ∧
    (∀ m, outcome = .networkError m → msg = "Network error: " ++ m) ∧
    (outcome = .timeout → msg = "Request timeout") := by
  refine ⟨fetchWorkflowStatus_of_error owner repo workflow outcome msg h,
    getWorkflowRuns_error_nonempty outcome msg h, ?_, ?_, ?_, ?_, ?_, ?_⟩
  · intro body hb
    subst hb
    simp [getWorkflowRuns] at h
    exact h.symm
  · intro body hb
    subst hb
    simp [getWorkflowRuns] at h
    exact h.symm
  · intro code body hb h200 h401 h404
    subst hb
    simp only [getWorkflowRuns, if_neg h200, if_neg h401, if_neg h404] at h
    injection h with h
    exact h.symm
  · intro hb
    subst hb
    simp [getWorkflowRuns] at h
    exact h.symm
  · intro m hb
    subst hb
    simp only [getWorkflowRuns] at h
    injection h with h
    exact h.symm
  · intro hb
    subst hb
    simp [getWorkflowRuns] at h
    exact h.symm

/-- Witness for C2: a timeout, evaluated at concrete inputs. -/
theorem fetchWorkflowStatus_never_throws_witness :
    fetchWorkflowStatus "acme" "widgets" none HttpOutcome.timeout =
      { status := .unknown, name := "Error",
        url := actionsListUrl "acme" "widgets", branch := "",
        error := some "Request timeout" } :=
  (fetchWorkflowStatus_never_throws "acme" "widgets" none HttpOutcome.timeout
    "Request timeout" rfl).1

/-- Claim C6: a successful provider answer with zero run records
(`total_count = 0` or an empty run list) yields classification `unknown`,
the non-empty error explanation "No workflow runs found", and the
repository's general actions run-list URL — a returned value, not a
thrown error. -/
theorem fetchWorkflowStatus_zero_runs (owner repo : String)
    (workflow : Option String) (runs : GitHubActionsResponse)
    (h : runs.total_count = 0 ∨ runs.workflow_runs = []) :
    fetchWorkflowStatus owner repo workflow
        (.response 200 (some runs)) =
      { status := .unknown, name := jsStrOr workflow "No runs",
        url := actionsListUrl owner repo, branch := "",
        error := some "No workflow runs found" } ∧
    "No workflow runs found" ≠ "" := by
  have hg : getWorkflowRuns (.response 200 (some runs)) = .ok runs := by
    simp [getWorkflowRuns]
  rw [fetchWorkflowStatus_of_ok owner repo workflow _ runs hg]
  have hcond : runs.total_count = 0 ∨ runs.workflow_runs.length = 0 := by
    rcases h with h | h
    · exact Or.inl h
    · exact Or.inr (by simp [h])
  rw [if_pos hcond]
  exact ⟨rfl, by decide⟩

/-- Witness for C6: a 200 response with `total_count = 0` and an empty
run list, evaluated at concrete inputs. -/
theorem fetchWorkflowStatus_zero_runs_witness :
    fetchWorkflowStatus "acme" "widgets" none
        (.response 200 (some { total_count := 0, workflow_runs := [] })) =
      { status := .unknown, name := jsStrOr none "No runs",
        url := actionsListUrl "acme" "widgets", branch := "",
        error := some "No workflow runs found" } :=
  (fetchWorkflowStatus_zero_runs "acme" "widgets" none
    { total_count := 0, workflow_runs := [] } (Or.inl rfl)).1

/-- Claim C1: the status classifier is exactly the spec's order-sensitive
total map: for a completed lifecycle, outcome "success" maps to `success`,
outcomes "failure"/"cancelled"/"timed_out" map to `failure`, any other
outcome (including null) to `unknown`; lifecycles "in_progress", "queued",
"pending", "waiting" map to `pending` regardless of outcome; every other
lifecycle maps to `unknown`. -/
theorem mapGitHubStatus_eq_specClassify (lifecycle : String)
    (outcome : Option String) :
    mapGitHubStatus lifecycle outcome = specClassify lifecycle outcome := by
  unfold mapGitHubStatus specClassify
  rcases outcome with _ | o
  · split_ifs <;> simp_all
  · simp only [List.mem_cons, List.mem_singleton, List.not_mem_nil,
      Option.some.injEq, or_false]

/-- `Map.set` then `Map.get` at the same key returns the new value. -/
theorem mapGet_mapSet_self (m : List (String × ActionInstance)) (k : String)
    (v : ActionInstance) : mapGet (mapSet m k v) k = some v := by
  induction m with
  | nil => simp [mapSet, mapGet]
  | cons hd tl ih =>
      obtain ⟨k1, v1⟩ := hd
      by_cases hk : k1 = k <;> simp [mapSet, mapGet, hk, ih]

/-- `refreshEffectsFor` never emits an open-url command. -/
theorem refreshEffectsFor_no_openUrl (ctx : String) (s : ActionSettings)
    (outcome : HttpOutcome) (e : Effect)
    (he : e ∈ refreshEffectsFor ctx s outcome) (u : String) :
    e ≠ Effect.openUrl u := by
  intro hc
  subst hc
  unfold refreshEffectsFor at he
  split_ifs at he <;> simp at he

/-- Claim C3 counterexample: for an existing session with no press-begin
recorded, a press-end at a realistic clock value is not ignored: the
source computes `Date.now() - (keyDownTime || 0)` and issues the long-press
open-url command. -/
theorem keyUp_without_keyDown_not_ignored :
    (handleKeyUp sampleState "a" 1700000000000 HttpOutcome.timeout).2 =
      [Effect.openUrl "https://github.com/o/r/actions"] := by
  decide

/-- Claim C3 (amended): for an existing session, press-end classifies the
gesture by `elapsed = now - (press timestamp, or 0 when absent)`: at least
500 ms gives the long-press open-url command, less gives a short-press
refresh; so a press-end with no prior press-begin is treated as a press
outstanding since time 0 (long whenever `now ≥ 500 ms`) rather than being
ignored; the stored press timestamp is cleared after every press-end. -/
theorem handleKeyUp_amended (st : PluginState) (ctx : String)
    (inst : ActionInstance) (now : Nat) (outcome : HttpOutcome)
    (h : mapGet st.actions ctx = some inst) :
    ((handleKeyUp st ctx now outcome).2 =
      if now - inst.keyDownTime.getD 0 ≥ LONG_PRESS_THRESHOLD then
        [Effect.openUrl (openGitHubUrl inst.settings)]
      else refreshEffectsFor ctx inst.settings outcome) ∧
    (inst.keyDownTime = none →
      (handleKeyUp st ctx now outcome).2 =
        if now ≥ 500 then [Effect.openUrl (openGitHubUrl inst.settings)]
        else refreshEffectsFor ctx inst.settings outcome) ∧
    mapGet (handleKeyUp st ctx now outcome).1.actions ctx =
      some { inst with keyDownTime := none } := by
  unfold handleKeyUp
  rw [h]
  dsimp only
  refine ⟨?_, ?_, ?_⟩
  · split_ifs with h1
    · rfl
    · simp only [refreshStatus, h]
  · intro hk
    simp only [hk, Option.getD_none, Nat.sub_zero, LONG_PRESS_THRESHOLD]
    split_ifs with h1
    · rfl
    · simp only [refreshStatus, h]
  · simp only [mapGet_mapSet_self]

/-- Witness for the amended C3: a press begun at t = 100 released at
t = 700 on session "a" gives the long-press command and clears the
timestamp. -/
theorem handleKeyUp_amended_witness :
    (handleKeyUp pressedState "a" 700 HttpOutcome.timeout).2 =
      [Effect.openUrl (openGitHubUrl pressedInstance.settings)] ∧
    mapGet (handleKeyUp pressedState "a" 700 HttpOutcome.timeout).1.actions
        "a" = some { pressedInstance with keyDownTime := none } := by
  have h := handleKeyUp_amended pressedState "a" pressedInstance 700
    HttpOutcome.timeout (by decide)
  refine ⟨?_, h.2.2⟩
  rw [h.1]
  decide

/-- Claim C4, evaluated at the failing input: after two appear events for
the same key "k" with no disappear in between, the session map holds one
entry for "k" but two interval timers for "k" are live — the first
appear's timer handle was overwritten without `clearInterval`, violating
the at-most-one-timer-per-session invariant the spec states. -/
theorem double_appear_two_live_timers :
    timersFor
        (runEvents initState
          [Event.willAppear "k" (some sampleSettings) HttpOutcome.timeout,
           Event.willAppear "k" (some sampleSettings) HttpOutcome.timeout])
        "k" = 2 ∧
    (runEvents initState
        [Event.willAppear "k" (some sampleSettings) HttpOutcome.timeout,
         Event.willAppear "k" (some sampleSettings) HttpOutcome.timeout]).actions.map
      Prod.fst = ["k"] := by
  decide

/-- Claim C7: on a refresh for an existing session, if the credential,
owner, or repository setting is empty the fetch is skipped and the fixed
needs-configuration display (`unknown` / "Configure") is shown; a fetch
is attempted exactly when all three are non-empty. -/
theorem refreshStatus_missing_settings (st : PluginState) (ctx : String)
    (inst : ActionInstance) (outcome : HttpOutcome)
    (h : mapGet st.actions ctx = some inst) :
    ((inst.settings.githubToken = "" ∨ inst.settings.owner = "" ∨
        inst.settings.repo = "") →
      refreshStatus st ctx outcome =
        [Effect.setDisplay ctx WorkflowStatus.unknown "Configure"]) ∧
    ((∃ e ∈ refreshStatus st ctx outcome,
        ∃ c tk ow rp w, e = Effect.fetchCall c tk ow rp w) ↔
      (inst.settings.githubToken ≠ "" ∧ inst.settings.owner ≠ "" ∧
        inst.settings.repo ≠ "")) := by
  simp only [refreshStatus, h]
  unfold refreshEffectsFor
  split_ifs with hc
  · refine ⟨fun _ => rfl, ?_⟩
    constructor
    · rintro ⟨e, he, c, tk, ow, rp, w, rfl⟩
      simp at he
    · rintro ⟨h1, h2, h3⟩
      rcases hc with hc | hc | hc
      · exact absurd hc h1
      · exact absurd hc h2
      · exact absurd hc h3
  · push_neg at hc
    refine ⟨fun hx => ?_, ?_⟩
    · rcases hx with hx | hx | hx
      · exact absurd hx hc.1
      · exact absurd hx hc.2.1
      · exact absurd hx hc.2.2
    · constructor
      · intro _
        exact hc
      · intro _
        refine ⟨Effect.fetchCall ctx inst.settings.githubToken
          inst.settings.owner inst.settings.repo inst.settings.workflow,
          ?_, _, _, _, _, _, rfl⟩
        simp

/-- Witness for C7: the all-empty default settings skip the fetch and show
"Configure". -/
theorem refreshStatus_missing_settings_witness :
    refreshStatus unconfiguredState "a" HttpOutcome.timeout =
      [Effect.setDisplay "a" WorkflowStatus.unknown "Configure"] :=
  (refreshStatus_missing_settings unconfiguredState "a" unconfiguredInstance
    HttpOutcome.timeout (by decide)).1 (Or.inl rfl)

/-- Claim C8: for an existing session with a recorded press-begin, a
long press (elapsed ≥ threshold) issues exactly one open-url command for
the session's monitored actions run list and triggers no refresh; a short
press triggers exactly the refresh effects and issues no open-url
command. -/
theorem keyUp_gesture_commands (st : PluginState) (ctx : String)
    (inst : ActionInstance) (t0 now : Nat) (outcome : HttpOutcome)
    (h : mapGet st.actions ctx = some inst)
    (hk : inst.keyDownTime = some t0) :
    (now - t0 ≥ LONG_PRESS_THRESHOLD →
      (handleKeyUp st ctx now outcome).2 =
        [Effect.openUrl (openGitHubUrl inst.settings)]) ∧
    (now - t0 < LONG_PRESS_THRESHOLD →
      (handleKeyUp st ctx now outcome).2 =
        refreshEffectsFor ctx inst.settings outcome ∧
      ∀ e ∈ (handleKeyUp st ctx now outcome).2, ∀ u,
        e ≠ Effect.openUrl u) := by
  unfold handleKeyUp
  rw [h]
  dsimp only
  rw [hk]
  dsimp only [Option.getD]
  constructor
  · intro hge
    rw [if_pos hge]
  · intro hlt
    rw [if_neg (by omega)]
    refine ⟨by simp only [refreshStatus, h], ?_⟩
    intro e he u
    simp only [refreshStatus, h] at he
    exact refreshEffectsFor_no_openUrl ctx inst.settings outcome e he u

/-- Witness for C8: press at t = 100, release at t = 700 gives the single
open-url command; release at t = 300 gives the refresh effects. -/
theorem keyUp_gesture_commands_witness :
    (handleKeyUp pressedState "a" 700 HttpOutcome.timeout).2 =
      [Effect.openUrl (openGitHubUrl pressedInstance.settings)] ∧
    (handleKeyUp pressedState "a" 300 HttpOutcome.timeout).2 =
      refreshEffectsFor "a" pressedInstance.settings HttpOutcome.timeout :=
  ⟨(keyUp_gesture_commands pressedState "a" pressedInstance 100 700
      HttpOutcome.timeout (by decide) rfl).1 (by decide),
   ((keyUp_gesture_commands pressedState "a" pressedInstance 100 300
      HttpOutcome.timeout (by decide) rfl).2 (by decide)).1⟩

/-- Claim C9 counterexample: the source enforces no 1-second minimum on
the timer period. The JS number 0.5 is truthy, so a configured interval
of half a second passes `refreshInterval || 60` unchanged and yields a
500 ms period, below 1 second. -/
theorem fractional_interval_breaks_minimum :
    refreshPeriodMs (1 / 2) = 500 ∧ ¬ 1000 ≤ refreshPeriodMs (1 / 2) := by
  unfold refreshPeriodMs jsNumOr
  norm_num

/-- Claim C9 (amended): starting a session's refresh timer schedules
exactly one interval whose period is `(refreshInterval || 60) * 1000` ms,
with no clamping: the default is 60 seconds when the interval is absent
or zero (falsy); any truthy configured value is used as is, so the period
equals the configured seconds and is at least 1 second exactly for
configured values of at least 1 — fractional values below 1 give
sub-second periods; the `Nat`-narrowed session model agrees with the
unclamped JS arithmetic on every integer configuration; the default
settings carry 60 seconds. -/
theorem startRefreshTimer_period_amended (st : PluginState) (ctx : String)
    (inst : ActionInstance) (h : mapGet st.actions ctx = some inst) :
    (startRefreshTimer st ctx).liveTimers =
      st.liveTimers ++
        [(st.nextTimerId, ctx,
          jsNatOr inst.settings.refreshInterval 60 * 1000)] ∧
    refreshPeriodMs 0 = 60000 ∧
    (∀ r : ℚ, 1 ≤ r →
      refreshPeriodMs r = r * 1000 ∧ 1000 ≤ refreshPeriodMs r) ∧
    (∀ n : Nat, refreshPeriodMs (n : ℚ) =
      ((jsNatOr n 60 * 1000 : Nat) : ℚ)) ∧
    getDefaultSettings.refreshInterval = 60 := by
  refine ⟨?_, ?_, ?_, ?_, rfl⟩
  · unfold startRefreshTimer
    rw [h]
  · unfold refreshPeriodMs jsNumOr
    norm_num
  · intro r hr
    unfold refreshPeriodMs jsNumOr
    rw [if_neg (by intro h0; rw [h0] at hr; norm_num at hr)]
    exact ⟨rfl, by linarith⟩
  · intro n
    unfold refreshPeriodMs jsNumOr jsNatOr
    by_cases hn : n = 0
    · subst hn
      norm_num
    · rw [if_neg (by exact_mod_cast hn), if_neg hn]
      push_cast
      ring

/-- Witness for the amended C9: session "a" configured at 60 seconds gets
one timer with a 60000 ms period, and the unclamped arithmetic gives a
1000 ms period at a configured value of 1. -/
theorem startRefreshTimer_period_amended_witness :
    (startRefreshTimer sampleState "a").liveTimers =
      sampleState.liveTimers ++
        [(sampleState.nextTimerId, "a",
          jsNatOr sampleInstance.settings.refreshInterval 60 * 1000)] ∧
    refreshPeriodMs 1 = 1 * 1000 :=
  ⟨(startRefreshTimer_period_amended sampleState "a" sampleInstance
      (by decide)).1,
   ((startRefreshTimer_period_amended sampleState "a" sampleInstance
      (by decide)).2.2.1 1 (by norm_num)).1⟩


/-- Explicit form of `stopRefreshTimer` on a session owning a timer. -/
theorem stopRefreshTimer_some (st : PluginState) (ctx : String)
    (inst : ActionInstance) (tid : Nat)
    (h : mapGet st.actions ctx = some inst)
    (ht : inst.refreshTimer = some tid) :
    stopRefreshTimer st ctx =
      { st with
        actions := mapSet st.actions ctx
          { inst with refreshTimer := none },
        liveTimers := st.liveTimers.filter (fun t => t.1 ≠ tid) } := by
  unfold stopRefreshTimer
  rw [h]
  dsimp only
  rw [ht]

/-- Explicit form of `startRefreshTimer` on an existing session. -/
theorem startRefreshTimer_some (st : PluginState) (ctx : String)
    (inst : ActionInstance) (h : mapGet st.actions ctx = some inst) :
    startRefreshTimer st ctx =
      { st with
        actions := mapSet st.actions ctx
          { inst with refreshTimer := some st.nextTimerId },
        nextTimerId := st.nextTimerId + 1,
        liveTimers := st.liveTimers ++
          [(st.nextTimerId, ctx,
            jsNatOr inst.settings.refreshInterval 60 * 1000)] } := by
  unfold startRefreshTimer
  rw [h]

/-- Explicit form of `refreshStatus` on an existing session. -/
theorem refreshStatus_some (st : PluginState) (ctx : String)
    (inst : ActionInstance) (outcome : HttpOutcome)
    (h : mapGet st.actions ctx = some inst) :
    refreshStatus st ctx outcome = refreshEffectsFor ctx inst.settings outcome := by
  unfold refreshStatus
  rw [h]

/-- Claim C5: on a settings-changed event for a session holding a live
timer, the old timer handle is removed from the live set (a later fire of
that handle is a no-op, so it never fires again), exactly one new timer is
appended whose period comes from the new settings, and the one immediate
refresh emits exactly the effects computed from the new settings — no
refresh started after the swap reads the stale settings. -/
theorem didReceiveSettings_swaps_timer (st : PluginState) (ctx : String)
    (inst : ActionInstance) (oldTid : Nat) (newSettings : ActionSettings)
    (outcome outcome2 : HttpOutcome)
    (h : mapGet st.actions ctx = some inst)
    (hold : inst.refreshTimer = some oldTid)
    (hfresh : oldTid ≠ st.nextTimerId) :
    (handleDidReceiveSettings st ctx newSettings outcome).1.liveTimers =
      st.liveTimers.filter (fun t => t.1 ≠ oldTid) ++
        [(st.nextTimerId, ctx,
          jsNatOr newSettings.refreshInterval 60 * 1000)] ∧
    (∀ t ∈ (handleDidReceiveSettings st ctx newSettings outcome).1.liveTimers,
      t.1 ≠ oldTid) ∧
    stepEvent (handleDidReceiveSettings st ctx newSettings outcome).1
        (Event.timerFire oldTid outcome2) =
      ((handleDidReceiveSettings st ctx newSettings outcome).1, []) ∧
    (handleDidReceiveSettings st ctx newSettings outcome).2 =
      refreshEffectsFor ctx newSettings outcome := by
  unfold handleDidReceiveSettings
  rw [h]
  dsimp only
  rw [stopRefreshTimer_some _ ctx
    ({ inst with settings := newSettings }) oldTid
    (mapGet_mapSet_self _ _ _) hold]
  dsimp only
  rw [startRefreshTimer_some _ ctx
    ({ inst with settings := newSettings, refreshTimer := none })
    (mapGet_mapSet_self _ _ _)]
  dsimp only
  rw [refreshStatus_some _ ctx
    ({ inst with settings := newSettings, refreshTimer := some st.nextTimerId })
    outcome (mapGet_mapSet_self _ _ _)]
  have hmem : ∀ t ∈ st.liveTimers.filter (fun t => t.1 ≠ oldTid) ++
      [(st.nextTimerId, ctx,
        jsNatOr newSettings.refreshInterval 60 * 1000)], t.1 ≠ oldTid := by
    intro t ht
    rcases List.mem_append.mp ht with ht | ht
    · exact of_decide_eq_true (List.mem_filter.mp ht).2
    · rcases List.mem_singleton.mp ht with rfl
      exact fun hc => hfresh hc.symm
  refine ⟨rfl, hmem, ?_, rfl⟩
  have hnone : (st.liveTimers.filter (fun t => t.1 ≠ oldTid) ++
      [(st.nextTimerId, ctx,
        jsNatOr newSettings.refreshInterval 60 * 1000)]).find?
        (fun t => t.1 = oldTid) = none := by
    rw [List.find?_eq_none]
    intro t ht
    simp only [decide_eq_true_eq]
    exact hmem t ht
  unfold stepEvent
  dsimp only
  rw [hnone]

/-- Witness for C5: session "a" holds timer 0; new settings with a
5-second interval replace it: timer 0 is gone, one new timer for "a" is
appended, and the immediate refresh uses the new settings. -/
theorem didReceiveSettings_swaps_timer_witness :
    (handleDidReceiveSettings timedState "a"
        { githubToken := "t2", owner := "o2", repo := "r2",
          workflow := none, refreshInterval := 5 }
        HttpOutcome.timeout).1.liveTimers =
      timedState.liveTimers.filter (fun t => t.1 ≠ 0) ++
        [(timedState.nextTimerId, "a", jsNatOr 5 60 * 1000)] ∧
    (handleDidReceiveSettings timedState "a"
        { githubToken := "t2", owner := "o2", repo := "r2",
          workflow := none, refreshInterval := 5 }
        HttpOutcome.timeout).2 =
      refreshEffectsFor "a"
        { githubToken := "t2", owner := "o2", repo := "r2",
          workflow := none, refreshInterval := 5 }
        HttpOutcome.timeout :=
  ⟨(didReceiveSettings_swaps_timer timedState "a" timedInstance 0
      { githubToken := "t2", owner := "o2", repo := "r2",
        workflow := none, refreshInterval := 5 }
      HttpOutcome.timeout HttpOutcome.timeout
      (by decide) rfl (by decide)).1,
   (didReceiveSettings_swaps_timer timedState "a" timedInstance 0
      { githubToken := "t2", owner := "o2", repo := "r2",
        workflow := none, refreshInterval := 5 }
      HttpOutcome.timeout HttpOutcome.timeout
      (by decide) rfl (by decide)).2.2.2⟩

/-- Claim C10: a refresh on an existing session whose credential, owner
and repository are all non-empty emits exactly two display updates in
order: first the loading state (`pending` / "Loading..."), then, after the
fetch, the result's status with title "Error" whenever the result carries
an error field (which, for results of `fetchWorkflowStatus`, is always a
non-empty string, so JavaScript truthiness agrees) and the status-derived
title otherwise. -/
theorem refreshStatus_two_displays (st : PluginState) (ctx : String)
    (inst : ActionInstance) (outcome : HttpOutcome)
    (h : mapGet st.actions ctx = some inst)
    (ht : inst.settings.githubToken ≠ "") (ho : inst.settings.owner ≠ "")
    (hr : inst.settings.repo ≠ "") :
    refreshStatus st ctx outcome =
      [Effect.setDisplay ctx WorkflowStatus.pending "Loading...",
       Effect.fetchCall ctx inst.settings.githubToken inst.settings.owner
         inst.settings.repo inst.settings.workflow,
       Effect.setDisplay ctx
         (fetchWorkflowStatus inst.settings.owner inst.settings.repo
           inst.settings.workflow outcome).status
         (if (fetchWorkflowStatus inst.settings.owner inst.settings.repo
             inst.settings.workflow outcome).error = none then
            formatStatusText (fetchWorkflowStatus inst.settings.owner
              inst.settings.repo inst.settings.workflow outcome).status
          else "Error")] := by
  rw [refreshStatus_some st ctx inst outcome h]
  unfold refreshEffectsFor
  rw [if_neg (by simp [ht, ho, hr])]
  have htitle : displayTitleFor (fetchWorkflowStatus inst.settings.owner
      inst.settings.repo inst.settings.workflow outcome) =
      if (fetchWorkflowStatus inst.settings.owner inst.settings.repo
          inst.settings.workflow outcome).error = none then
        formatStatusText (fetchWorkflowStatus inst.settings.owner
          inst.settings.repo inst.settings.workflow outcome).status
      else "Error" := by
    unfold displayTitleFor
    cases he : (fetchWorkflowStatus inst.settings.owner inst.settings.repo
        inst.settings.workflow outcome).error with
    | none => simp [jsStrTruthy, he]
    | some s =>
        have hs := fetchWorkflowStatus_error_nonempty inst.settings.owner
          inst.settings.repo inst.settings.workflow outcome s he
        simp [jsStrTruthy, he, hs]
  rw [htitle]

/-- Witness for C10: session "a" with settings ("t", "o", "r") refreshed
while the request times out: loading display, fetch, then the error
display. -/
theorem refreshStatus_two_displays_witness :
    refreshStatus sampleState "a" HttpOutcome.timeout =
      [Effect.setDisplay "a" WorkflowStatus.pending "Loading...",
       Effect.fetchCall "a" "t" "o" "r" none,
       Effect.setDisplay "a" WorkflowStatus.unknown "Error"] := by
  rw [refreshStatus_two_displays sampleState "a" sampleInstance
    HttpOutcome.timeout (by decide) (by decide) (by decide) (by decide)]
  decide
